import Mathlib

set_option maxRecDepth 40000

/-!
Verification of the "Diretor de IA" microservice (`diretor_app.py`).

The service loads a vocabulary file `emocoes.json` mapping category names to
lists of entries carrying a `comando` tag token, exposes one POST endpoint
`/api/humanize-text` that validates the Gemini credential and the request
body, composes an instruction from the caller prompt and the available tag
list, invokes the generative model and maps the outcome to an HTTP response.

The shallow embedding below models the vocabulary as an association list,
the parsed JSON request body as an `Option` of an optional `prompt` field,
and the external model call as a function from the composed instruction to
`Except String String` (exception message or returned text).
-/

namespace Diretor

/-- One entry of a vocabulary category; in `emocoes.json` each entry carries
a `comando` field holding the literal tag token. -/
structure Entry where
  comando : String
  deriving DecidableEq, Repr

/-- The parsed contents of `emocoes.json`: a mapping from category name to
its list of entries, modelled as an association list in insertion order. -/
abbrev VocabData := List (String × List Entry)

/-- The four tags appended unconditionally by `get_all_tags_string` via
`all_tags.extend([...])` (line 39 of the source). -/
def builtinTags : List String :=
  ["<breath>", "<emphasis_soft>", "<emphasis_medium>", "<emphasis_strong>"]

/-- The double loop `for category in emotion_tags_data.values(): for item in
category: all_tags.append(item[\x27comando\x27])`. -/
def allComandos (d : VocabData) : List String :=
  (d.map (fun c => c.2.map (fun i => i.comando))).flatten

/-- Python `", ".join(l)`. -/
def joinComma : List String → String
  | [] => ""
  | [x] => x
  | x :: y :: xs => x ++ ", " ++ joinComma (y :: xs)

/-- Python string comparison `x < y`: lexicographic by code point on the
character sequences. -/
def strLt (x y : String) : Prop := List.Lex (· < ·) x.data y.data

instance (x y : String) : Decidable (strLt x y) := by
  unfold strLt
  infer_instance

/-- Insert a string into a strictly sorted list, skipping duplicates.
Together with `sortDedup` this models Python `sorted(list(set(l)))`. -/
def insertTag (x : String) : List String → List String
  | [] => [x]
  | y :: ys =>
    if x = y then y :: ys
    else if strLt x y then x :: y :: ys
    else y :: insertTag x ys

/-- Python `sorted(list(set(l)))` for a list of strings: the strictly
sorted list of the distinct elements of `l`. -/
def sortDedup (l : List String) : List String := l.foldr insertTag []

/-- `get_all_tags_string` (source lines 29-40): returns the literal
"Nenhuma tag disponível." when the loaded mapping is empty (Python
`if not emotion_tags_data`), otherwise the comma-joined sorted
deduplicated comandos plus the built-in tags. -/
def get_all_tags_string (emotion_tags_data : VocabData) : String :=
  if emotion_tags_data.isEmpty then "Nenhuma tag disponível."
  else joinComma (sortDedup (allComandos emotion_tags_data ++ builtinTags))

/-- The composed instruction `prompt_com_ferramentas` (source lines 92-97). -/
def prompt_com_ferramentas (final_prompt : String) (d : VocabData) : String :=
  final_prompt ++ "\n\n" ++
  "LEMBRE-SE: Sua resposta deve conter APENAS o texto modificado com as tags inseridas. " ++
  "Não inclua nenhuma explicação, prefácio, ou qualquer texto adicional. " ++
  "As tags de estilo e emoção que você pode usar são: " ++
  get_all_tags_string d ++ "."

/-- A JSON response body: either an error payload or the success payload. -/
inductive RespBody where
  | errorBody (msg : String)
  | successBody (humanized_text : String)
  deriving DecidableEq, Repr

/-- An HTTP response: status code and JSON body. -/
structure HttpResponse where
  status : Nat
  body : RespBody
  deriving DecidableEq, Repr

/-- Python truthiness of `os.environ.get(...)` / `data.get(...)` results:
`None` and the empty string are falsy, every other string truthy. -/
def truthy : Option String → Bool
  | none => false
  | some s => !(s == "")

/-- Drop the longest whitespace prefix of a character list. -/
def dropWhitespace : List Char → List Char
  | [] => []
  | c :: cs => if c.isWhitespace then dropWhitespace cs else c :: cs

/-- Python `s.strip()`: remove leading and trailing whitespace. -/
def pyStrip (s : String) : String :=
  ⟨(dropWhitespace (dropWhitespace s.data).reverse).reverse⟩

/-- The `/api/humanize-text` handler (source lines 60-115).
`gemini_api_key` is the value of the environment variable (`none` if
unset), `data` the parsed request body (`none` for an absent or falsy
body, the inner option being the `prompt` field), and `gen` the external
model call taking the composed instruction to its returned text or to an
exception message. -/
def humanize_text_endpoint (gemini_api_key : Option String)
    (data : Option (Option String))
    (gen : String → Except String String)
    (emotion_tags_data : VocabData) : HttpResponse :=
  if ¬ truthy gemini_api_key then
    ⟨500, .errorBody "Configuração do servidor Gemini incompleta."⟩
  else
    match data with
    | none =>
      ⟨400, .errorBody "Requisição inválida. O \x27prompt\x27 não pode estar vazio."⟩
    | some promptField =>
      if ¬ truthy promptField then
        ⟨400, .errorBody "Requisição inválida. O \x27prompt\x27 não pode estar vazio."⟩
      else
        let final_prompt := promptField.getD ""
        match gen (prompt_com_ferramentas final_prompt emotion_tags_data) with
        | .error e =>
          ⟨500, .errorBody ("Erro interno ao processar o texto com a IA: " ++ e)⟩
        | .ok t =>
          let humanized_text := pyStrip t
          if humanized_text = "" then
            ⟨500, .errorBody "A IA retornou uma resposta vazia. Tente ajustar o texto ou o prompt."⟩
          else
            ⟨200, .successBody humanized_text⟩

/-- Outcome of trying to open and parse `emocoes.json` at startup. -/
inductive FileRead where
  | absent
  | malformed (err : String)
  | content (d : VocabData)

/-- The startup load (source lines 23-27): `open` raising
`FileNotFoundError` is caught and yields the empty mapping; a parse error
raised by `json.load` is not caught, so startup fails with that
exception. -/
def loadEmotionTags : FileRead → Except String VocabData
  | .absent => .ok ([] : VocabData)
  | .malformed e => .error e
  | .content d => .ok d

/-- `p` occurs as a contiguous substring of `s`. -/
def isSubstr (p s : String) : Prop := p.data <:+: s.data

instance (p s : String) : Decidable (isSubstr p s) := by
  unfold isSubstr
  infer_instance

/-- The vocabulary of the worked example in the specification:
`emocoes.json` = a single category "alegria" with one entry whose
`comando` is `<feliz>`. -/
def exampleVocab : VocabData := [("alegria", [{ comando := "<feliz>" }])]

/-! ### Order lemmas for the tag comparison -/

theorem strLt_trans {a b c : String} (h₁ : strLt a b) (h₂ : strLt b c) : strLt a c :=
  trans_of (List.Lex ((· < ·) : Char → Char → Prop)) h₁ h₂

theorem strLt_trichotomy (a b : String) : strLt a b ∨ a = b ∨ strLt b a := by
  rcases trichotomous_of (List.Lex ((· < ·) : Char → Char → Prop)) a.data b.data with h | h | h
  · exact Or.inl h
  · exact Or.inr (Or.inl (String.ext h))
  · exact Or.inr (Or.inr h)

theorem strLt_ne {a b : String} (h : strLt a b) : a ≠ b := by
  intro he
  subst he
  exact asymm_of (List.Lex ((· < ·) : Char → Char → Prop)) h h

/-! ### Insertion sort with deduplication -/

theorem mem_insertTag {a x : String} {l : List String} :
    a ∈ insertTag x l ↔ a = x ∨ a ∈ l := by
  induction l with
  | nil => simp [insertTag]
  | cons y ys ih =>
    by_cases hxy : x = y
    · subst hxy
      simp only [insertTag, if_pos rfl]
      constructor
      · exact Or.inr
      · rintro (rfl | h)
        · exact List.mem_cons_self _ _
        · exact h
    · by_cases hlt : strLt x y
      · simp [insertTag, hxy, hlt]
      · simp only [insertTag, if_neg hxy, if_neg hlt, List.mem_cons, ih]
        tauto

theorem pairwise_insertTag {x : String} {l : List String} (h : l.Pairwise strLt) :
    (insertTag x l).Pairwise strLt := by
  induction l with
  | nil => simp [insertTag]
  | cons y ys ih =>
    rcases List.pairwise_cons.mp h with ⟨hy, hys⟩
    by_cases hxy : x = y
    · subst hxy
      simpa [insertTag] using h
    · by_cases hlt : strLt x y
      · rw [show insertTag x (y :: ys) = x :: y :: ys from by simp [insertTag, hxy, hlt]]
        refine List.pairwise_cons.mpr ⟨?_, h⟩
        intro b hb
        rcases List.mem_cons.mp hb with rfl | hb
        · exact hlt
        · exact strLt_trans hlt (hy b hb)
      · have hyx : strLt y x := by
          rcases strLt_trichotomy x y with h1 | h1 | h1
          · exact absurd h1 hlt
          · exact absurd h1 hxy
          · exact h1
        rw [show insertTag x (y :: ys) = y :: insertTag x ys from by simp [insertTag, hxy, hlt]]
        refine List.pairwise_cons.mpr ⟨?_, ih hys⟩
        intro b hb
        rcases mem_insertTag.mp hb with rfl | hb
        · exact hyx
        · exact hy b hb

theorem pairwise_sortDedup (l : List String) : (sortDedup l).Pairwise strLt := by
  induction l with
  | nil => simp [sortDedup]
  | cons x xs ih => exact pairwise_insertTag ih

theorem mem_sortDedup {a : String} {l : List String} : a ∈ sortDedup l ↔ a ∈ l := by
  induction l with
  | nil => simp [sortDedup]
  | cons x xs ih =>
    rw [show sortDedup (x :: xs) = insertTag x (sortDedup xs) from rfl, mem_insertTag, ih]
    simp

theorem nodup_sortDedup (l : List String) : (sortDedup l).Nodup :=
  (pairwise_sortDedup l).imp fun h => strLt_ne h

/-! ### Substring lemmas -/

theorem infix_extend_left {l s : List Char} (a : List Char) (h : l <:+: s) :
    l <:+: a ++ s :=
  h.trans (List.IsSuffix.isInfix (List.suffix_append a s))

theorem infix_extend_right {l s : List Char} (b : List Char) (h : l <:+: s) :
    l <:+: s ++ b :=
  h.trans (List.IsPrefix.isInfix (List.prefix_append s b))

theorem substr_joinComma {t : String} {l : List String} (h : t ∈ l) :
    isSubstr t (joinComma l) := by
  induction l with
  | nil => simp at h
  | cons x xs ih =>
    cases xs with
    | nil =>
      have hx : t = x := by simpa using h
      subst hx
      exact List.infix_refl t.data
    | cons y ys =>
      rcases List.mem_cons.mp h with rfl | h2
      · show t.data <:+: (joinComma (t :: y :: ys)).data
        rw [show joinComma (t :: y :: ys) = t ++ ", " ++ joinComma (y :: ys) from rfl]
        rw [String.data_append, String.data_append, List.append_assoc]
        exact List.IsPrefix.isInfix (List.prefix_append t.data _)
      · have ihh := ih h2
        show t.data <:+: (joinComma (x :: y :: ys)).data
        rw [show joinComma (x :: y :: ys) = x ++ ", " ++ joinComma (y :: ys) from rfl]
        rw [String.data_append, String.data_append]
        exact ihh.trans (List.IsSuffix.isInfix (List.suffix_append _ _))

theorem substr_prompt (p : String) (d : VocabData) :
    isSubstr p (prompt_com_ferramentas p d) := by
  show p.data <:+: (prompt_com_ferramentas p d).data
  unfold prompt_com_ferramentas
  simp only [String.data_append, List.append_assoc]
  exact List.IsPrefix.isInfix (List.prefix_append p.data _)

theorem substr_of_substr_tags {t : String} (p : String) (d : VocabData)
    (h : isSubstr t (get_all_tags_string d)) :
    isSubstr t (prompt_com_ferramentas p d) := by
  show t.data <:+: (prompt_com_ferramentas p d).data
  unfold prompt_com_ferramentas
  simp only [String.data_append]
  exact infix_extend_right _ (infix_extend_left _ h)

theorem get_all_tags_string_of_ne (d : VocabData) (hd : d ≠ []) :
    get_all_tags_string d = joinComma (sortDedup (allComandos d ++ builtinTags)) := by
  have he : d.isEmpty = false := by
    simpa [List.isEmpty_iff] using hd
  simp [get_all_tags_string, he]

/-! ### Claim theorems -/

/-- C1 counterexample: the claim fails as stated. With the loaded
vocabulary mapping empty, a valid request does reach the model invocation
(the endpoint answers 200), yet the composed instruction does not contain
the built-in tag token `<breath>`, because `get_all_tags_string` short
circuits to the literal "Nenhuma tag disponível.". -/
theorem C1_counterexample :
    (humanize_text_endpoint (some "key") (some (some "Diga oi"))
        (fun _ => Except.ok "texto") []).status = 200
    ∧ ¬ isSubstr "<breath>" (prompt_com_ferramentas "Diga oi" []) := by
  exact ⟨by decide, by decide⟩

/-- C1 (amended): for every request that reaches the model invocation
while the loaded vocabulary mapping is non-empty, the composed instruction
contains the original prompt as a substring, together with every `comando`
tag token of the mapping and the four built-in tags. -/
theorem C1_composed_contains (p t : String) (d : VocabData) (hd : d ≠ [])
    (ht : t ∈ allComandos d ∨ t ∈ builtinTags) :
    isSubstr p (prompt_com_ferramentas p d)
    ∧ isSubstr t (prompt_com_ferramentas p d) := by
  refine ⟨substr_prompt p d, substr_of_substr_tags p d ?_⟩
  rw [get_all_tags_string_of_ne d hd]
  apply substr_joinComma
  rw [mem_sortDedup, List.mem_append]
  exact ht

/-- C1 witness: the amended claim applied to the example vocabulary and
the prompt "Diga oi", for the built-in token `<breath>`. -/
theorem C1_composed_contains_witness :
    (exampleVocab ≠ [])
    ∧ ("<breath>" ∈ allComandos exampleVocab ∨ "<breath>" ∈ builtinTags)
    ∧ (isSubstr "Diga oi" (prompt_com_ferramentas "Diga oi" exampleVocab)
        ∧ isSubstr "<breath>" (prompt_com_ferramentas "Diga oi" exampleVocab)) :=
  ⟨by decide, by decide,
    C1_composed_contains "Diga oi" "<breath>" exampleVocab (by decide) (by decide)⟩

/-- C2 counterexample: with the vocabulary source missing the loaded
mapping is empty, and the composed instruction then contains none of the
four built-in tags (here `<emphasis_soft>`): the tag list degenerates to
the literal "Nenhuma tag disponível.". -/
theorem C2_counterexample :
    get_all_tags_string [] = "Nenhuma tag disponível."
    ∧ ¬ isSubstr "<emphasis_soft>" (prompt_com_ferramentas "Olá" []) := by
  exact ⟨rfl, by decide⟩

/-- C2 (amended): when the vocabulary mapping is empty the tag list placed
into the composed instruction is exactly the literal
"Nenhuma tag disponível.", which contains none of the four built-in
tags. -/
theorem C2_empty_vocab_no_builtins (t : String) (ht : t ∈ builtinTags) :
    get_all_tags_string [] = "Nenhuma tag disponível."
    ∧ ¬ isSubstr t (get_all_tags_string []) := by
  refine ⟨rfl, ?_⟩
  simp only [builtinTags, List.mem_cons, List.not_mem_nil, or_false] at ht
  rcases ht with rfl | rfl | rfl | rfl <;> decide

/-- C2 witness: the amended claim applied to the built-in tag
`<breath>`. -/
theorem C2_empty_vocab_no_builtins_witness :
    ("<breath>" ∈ builtinTags)
    ∧ (get_all_tags_string [] = "Nenhuma tag disponível."
        ∧ ¬ isSubstr "<breath>" (get_all_tags_string [])) :=
  ⟨by decide, C2_empty_vocab_no_builtins "<breath>" (by decide)⟩

/-- C3 counterexample: the claim fails as stated in two ways. With the
credential unset, a request with an absent body gets HTTP 500, not 400;
and with the credential set, a whitespace-only prompt is truthy in Python
and is accepted (HTTP 200 on model success), not rejected with 400. -/
theorem C3_counterexample :
    (humanize_text_endpoint none none (fun _ => Except.ok "x") []).status = 500
    ∧ (humanize_text_endpoint (some "k") (some (some " "))
        (fun _ => Except.ok "ok") []).status = 200 := by
  exact ⟨by decide, by decide⟩

/-- C3 (amended): when the credential is set non-empty, a request whose
body is absent or whose prompt field is missing or the empty string gets
HTTP 400; when the credential is unset the same request gets HTTP 500
instead (whitespace-only prompts are not covered: they pass
validation). -/
theorem C3_validation (k : String) (gen : String → Except String String)
    (d : VocabData) (data : Option (Option String)) (hk : k ≠ "")
    (hdata : data = none ∨ data = some none ∨ data = some (some "")) :
    (humanize_text_endpoint (some k) data gen d).status = 400
    ∧ (humanize_text_endpoint none data gen d).status = 500 := by
  constructor
  · rcases hdata with rfl | rfl | rfl <;>
      simp [humanize_text_endpoint, truthy, hk]
  · simp [humanize_text_endpoint, truthy]

/-- C3 witness: the amended claim applied to an absent body. -/
theorem C3_validation_witness :
    ("k" ≠ "")
    ∧ ((none : Option (Option String)) = none
        ∨ (none : Option (Option String)) = some none
        ∨ (none : Option (Option String)) = some (some ""))
    ∧ ((humanize_text_endpoint (some "k") none (fun _ => Except.ok "x") []).status = 400
        ∧ (humanize_text_endpoint none none (fun _ => Except.ok "x") []).status = 500) :=
  ⟨by decide, Or.inl rfl,
    C3_validation "k" (fun _ => Except.ok "x") [] none (by decide) (Or.inl rfl)⟩

/-- C4: with a non-empty credential, a non-empty prompt and a model call
that succeeds with output that is non-blank after stripping, the endpoint
returns HTTP 200 with success true and the stripped model text. -/
theorem C4_success (k p t : String) (gen : String → Except String String)
    (d : VocabData) (hk : k ≠ "") (hp : p ≠ "")
    (hgen : gen (prompt_com_ferramentas p d) = Except.ok t)
    (ht : pyStrip t ≠ "") :
    humanize_text_endpoint (some k) (some (some p)) gen d
      = ⟨200, RespBody.successBody (pyStrip t)⟩ := by
  simp [humanize_text_endpoint, truthy, hk, hp, hgen, ht]

/-- C4 witness: the claim applied to concrete inputs, with the model
returning "  texto " which is stripped to "texto". -/
theorem C4_success_witness :
    ("k" ≠ "") ∧ ("oi" ≠ "")
    ∧ ((fun _ : String => (Except.ok "  texto " : Except String String))
        (prompt_com_ferramentas "oi" []) = Except.ok "  texto ")
    ∧ (pyStrip "  texto " ≠ "")
    ∧ humanize_text_endpoint (some "k") (some (some "oi"))
        (fun _ : String => (Except.ok "  texto " : Except String String)) []
      = ⟨200, RespBody.successBody (pyStrip "  texto ")⟩ :=
  ⟨by decide, by decide, rfl, by decide,
    C4_success "k" "oi" "  texto "
      (fun _ : String => (Except.ok "  texto " : Except String String)) []
      (by decide) (by decide) rfl (by decide)⟩

/-- C5: when a request reaches the model invocation and the model returns
text that is empty after stripping, the endpoint returns HTTP 500 with an
error payload, never HTTP 200. -/
theorem C5_blank_output (k p t : String) (gen : String → Except String String)
    (d : VocabData) (hk : k ≠ "") (hp : p ≠ "")
    (hgen : gen (prompt_com_ferramentas p d) = Except.ok t)
    (ht : pyStrip t = "") :
    humanize_text_endpoint (some k) (some (some p)) gen d
      = ⟨500, RespBody.errorBody
          "A IA retornou uma resposta vazia. Tente ajustar o texto ou o prompt."⟩
    ∧ (humanize_text_endpoint (some k) (some (some p)) gen d).status ≠ 200 := by
  have h500 : humanize_text_endpoint (some k) (some (some p)) gen d
      = ⟨500, RespBody.errorBody
          "A IA retornou uma resposta vazia. Tente ajustar o texto ou o prompt."⟩ := by
    simp [humanize_text_endpoint, truthy, hk, hp, hgen, ht]
  exact ⟨h500, by rw [h500]; decide⟩

/-- C5 witness: the claim applied to concrete inputs, with the model
returning a whitespace-only string. -/
theorem C5_blank_output_witness :
    ("k" ≠ "") ∧ ("oi" ≠ "")
    ∧ ((fun _ : String => (Except.ok "  \n " : Except String String))
        (prompt_com_ferramentas "oi" []) = Except.ok "  \n ")
    ∧ (pyStrip "  \n " = "")
    ∧ (humanize_text_endpoint (some "k") (some (some "oi"))
        (fun _ : String => (Except.ok "  \n " : Except String String)) []
      = ⟨500, RespBody.errorBody
          "A IA retornou uma resposta vazia. Tente ajustar o texto ou o prompt."⟩
      ∧ (humanize_text_endpoint (some "k") (some (some "oi"))
          (fun _ : String => (Except.ok "  \n " : Except String String)) []).status ≠ 200) :=
  ⟨by decide, by decide, rfl, by decide,
    C5_blank_output "k" "oi" "  \n "
      (fun _ : String => (Except.ok "  \n " : Except String String)) []
      (by decide) (by decide) rfl (by decide)⟩

/-- C6: with the credential environment variable unset, the handler
returns the HTTP 500 configuration error for every request body, every
model function and every vocabulary state: the result does not depend on
the input or on the external call, which is therefore never needed. -/
theorem C6_missing_credential (data : Option (Option String))
    (gen : String → Except String String) (d : VocabData) :
    humanize_text_endpoint none data gen d
      = ⟨500, RespBody.errorBody "Configuração do servidor Gemini incompleta."⟩ := by
  simp [humanize_text_endpoint, truthy]

/-- C7 counterexample: a present but unparseable vocabulary file makes
startup fail (the parse exception propagates); the service does not start
with an empty mapping as claimed. -/
theorem C7_counterexample :
    loadEmotionTags (FileRead.malformed "Expecting value: line 1 column 1")
      = Except.error "Expecting value: line 1 column 1"
    ∧ loadEmotionTags (FileRead.malformed "Expecting value: line 1 column 1")
      ≠ Except.ok ([] : VocabData) := by
  refine ⟨rfl, ?_⟩
  intro h
  exact Except.noConfusion h

/-- C7 (amended): an absent vocabulary file yields an empty mapping and a
successful startup, a parseable file yields its contents, but a malformed
file makes startup fail with the parse error. -/
theorem C7_startup_load (e : String) (d : VocabData) :
    loadEmotionTags FileRead.absent = Except.ok ([] : VocabData)
    ∧ loadEmotionTags (FileRead.content d) = Except.ok d
    ∧ loadEmotionTags (FileRead.malformed e) = Except.error e :=
  ⟨rfl, rfl, rfl⟩

/-- C8 counterexample: with the external source empty, the tag-string
operation does not include the built-in tag set; it returns the literal
"Nenhuma tag disponível." instead of the joined built-in list. -/
theorem C8_counterexample :
    get_all_tags_string [] = "Nenhuma tag disponível."
    ∧ get_all_tags_string [] ≠ joinComma (sortDedup builtinTags) := by
  exact ⟨rfl, by decide⟩

/-- C8 (amended): for every non-empty vocabulary mapping, the tag-string
operation returns the comma-and-space join of a strictly sorted,
duplicate-free list whose members are exactly the `comando` values across
all categories together with the four built-in tags; for the empty
mapping it returns the literal "Nenhuma tag disponível." instead. -/
theorem C8_tags_string (d : VocabData) (t : String) (hd : d ≠ []) :
    get_all_tags_string d = joinComma (sortDedup (allComandos d ++ builtinTags))
    ∧ (sortDedup (allComandos d ++ builtinTags)).Pairwise strLt
    ∧ (sortDedup (allComandos d ++ builtinTags)).Nodup
    ∧ (t ∈ sortDedup (allComandos d ++ builtinTags)
        ↔ t ∈ allComandos d ∨ t ∈ builtinTags) :=
  ⟨get_all_tags_string_of_ne d hd, pairwise_sortDedup _, nodup_sortDedup _,
    by rw [mem_sortDedup, List.mem_append]⟩

/-- C8 witness: the amended claim applied to the example vocabulary and
the token `<feliz>`. -/
theorem C8_tags_string_witness :
    (exampleVocab ≠ [])
    ∧ (get_all_tags_string exampleVocab
          = joinComma (sortDedup (allComandos exampleVocab ++ builtinTags))
      ∧ (sortDedup (allComandos exampleVocab ++ builtinTags)).Pairwise strLt
      ∧ (sortDedup (allComandos exampleVocab ++ builtinTags)).Nodup
      ∧ ("<feliz>" ∈ sortDedup (allComandos exampleVocab ++ builtinTags)
          ↔ "<feliz>" ∈ allComandos exampleVocab ∨ "<feliz>" ∈ builtinTags)) :=
  ⟨by decide, C8_tags_string exampleVocab "<feliz>" (by decide)⟩

/-- C9 counterexample: on the worked example the spec names the tag list
"<feliz>, <breath>, <emphasis_soft>, <emphasis_medium>, <emphasis_strong>";
that string is not a substring of the composed instruction, because the
actual code-point sort places `<feliz>` last. -/
theorem C9_counterexample :
    ¬ isSubstr "<feliz>, <breath>, <emphasis_soft>, <emphasis_medium>, <emphasis_strong>"
      (prompt_com_ferramentas "Diga oi" exampleVocab) := by
  decide

/-- C9 (amended): on the worked example the composed instruction contains
"Diga oi" and its tag list is the sorted string
"<breath>, <emphasis_medium>, <emphasis_soft>, <emphasis_strong>, <feliz>",
which occurs in the instruction. -/
theorem C9_example :
    isSubstr "Diga oi" (prompt_com_ferramentas "Diga oi" exampleVocab)
    ∧ get_all_tags_string exampleVocab
        = "<breath>, <emphasis_medium>, <emphasis_soft>, <emphasis_strong>, <feliz>"
    ∧ isSubstr "<breath>, <emphasis_medium>, <emphasis_soft>, <emphasis_strong>, <feliz>"
        (prompt_com_ferramentas "Diga oi" exampleVocab) := by
  exact ⟨by decide, by decide, by decide⟩

/-- C10: with the vocabulary mapping empty, the tag-string operation
returns exactly the literal "Nenhuma tag disponível." (no built-in tags),
and every composed instruction built in that state places that literal
where the available-tags list would otherwise appear. -/
theorem C10_empty_vocab_literal (p : String) :
    get_all_tags_string [] = "Nenhuma tag disponível."
    ∧ ¬ isSubstr "<breath>" (get_all_tags_string [])
    ∧ prompt_com_ferramentas p [] =
        p ++ "\n\n" ++
        "LEMBRE-SE: Sua resposta deve conter APENAS o texto modificado com as tags inseridas. " ++
        "Não inclua nenhuma explicação, prefácio, ou qualquer texto adicional. " ++
        "As tags de estilo e emoção que você pode usar são: " ++
        "Nenhuma tag disponível." ++ "." :=
  ⟨rfl, by decide, rfl⟩

end Diretor
